import Mathlib

/-!
Verification of the vision-proxy quickstart.

Shallow embedding of the two source files:
  app/api/assistants/vision/route.ts  (server proxy, function POST)
  app/components/chat.tsx             (client component Chat)

Server side: `POST` takes the parsed JSON body and an oracle describing the
outcome of the one upstream call, and returns the HTTP status, the JSON body
and the chat request that was sent upstream (`none` when validation
short-circuited before the call).

Client side: `handleSubmit` is callback based.  Its execution decomposes into
an event-loop order that JavaScript guarantees: first the synchronous body of
the handler runs to completion (including the `finally` block), then the
FileReader `onloadend` callback fires, then the `fetch` promise resolves.
Each phase is embedded as a state transformer on `ClientState`; the committed
React state after a phase is the result of applying the transformer.
Functional `setMessages(prev => ...)` updates read the current state, while
variables captured in the closure (`userInput`, `imagePreview`) keep the
values from the render in which the handler was created; the embedding passes
the closure state separately where that matters.
-/

/-- JavaScript string-or: `a || b` for strings (empty string is falsy). -/
def strOr (a b : String) : String := if a = "" then b else a

/-- Whether a sublist of characters occurs contiguously in a list. -/
def containsSub (s pat : List Char) : Bool :=
  match s with
  | [] => pat.isEmpty
  | _ :: t => pat.isPrefixOf s || containsSub t pat

/-- JavaScript `s.includes(pat)` on strings. -/
def strContains (s pat : String) : Bool := containsSub s.data pat.data

/-- Characters of the base64 alphabet (padding excluded). -/
def isBase64Char (c : Char) : Bool :=
  ('A' ≤ c && c ≤ 'Z') || ('a' ≤ c && c ≤ 'z') || ('0' ≤ c && c ≤ '9') || c = '+' || c = '/'

/-- Byte length of `Buffer.from(s, 'base64')`: Node decodes the base64
alphabet characters and ignores padding and invalid characters, so a string
with `n` alphabet characters decodes to `3 * n / 4` bytes. -/
def base64ByteLength (s : String) : Nat :=
  (s.data.filter isBase64Char).length * 3 / 4

/-- Wire payload sent by the client to the proxy: `{imageBase64, question}`.
`imageBase64` is optional because the proxy checks for its absence. -/
structure VisionBody where
  imageBase64 : Option String
  question : String
deriving DecidableEq

/-- One part of the multimodal message content sent upstream:
`{type:"text", text}` or `{type:"image_url", image_url:{url, detail}}`. -/
inductive ContentPart where
  | text (t : String)
  | image (url : String) (detail : String)
deriving DecidableEq

/-- A message of the upstream chat request. -/
structure OAIMessage where
  role : String
  content : List ContentPart
deriving DecidableEq

/-- The request passed to `openai.chat.completions.create`. -/
structure ChatRequest where
  model : String
  messages : List OAIMessage
  max_tokens : Nat
deriving DecidableEq

/-- The `message` field of a completion choice; `content` is nullable. -/
structure ChatMessageOut where
  content : Option String
deriving DecidableEq

/-- One completion choice. -/
structure Choice where
  message : ChatMessageOut
deriving DecidableEq

/-- The completion object returned by the upstream API. -/
structure Completion where
  choices : List Choice
deriving DecidableEq

/-- A JavaScript thrown value as the catch block distinguishes it:
an `Error` instance carrying a message, or any other value. -/
inductive Thrown where
  | errObj (msg : String)
  | otherVal
deriving DecidableEq

/-- JSON body of a proxy response: `{result}` on success or `{error}`. -/
inductive RespBody where
  | resultBody (r : String)
  | errorBody (e : String)
deriving DecidableEq

/-- Outcome of the proxy handler: HTTP status, JSON body, and the request
sent upstream (`none` when the upstream API was never called). -/
structure PostResult where
  status : Nat
  body : RespBody
  sent : Option ChatRequest
deriving DecidableEq

/-- The chat request the proxy builds (route.ts lines 30-51): a single user
turn with the question text and the image relabelled as JPEG, detail "auto",
max_tokens 300. -/
def mkChatRequest (imageBase64 question : String) : ChatRequest :=
  { model := "gpt-4o-mini"
    messages := [{ role := "user"
                   content := [ .text question,
                                .image ("data:image/jpeg;base64," ++ imageBase64) "auto" ] }]
    max_tokens := 300 }

/-- The catch block of the proxy (route.ts lines 61-94): substring checks on
the message of an `Error`, in source order; non-`Error` values get the
generic 500.  `sent` records whether the upstream call had been made. -/
def errorResponse (e : Thrown) (sent : Option ChatRequest) : PostResult :=
  match e with
  | .errObj msg =>
    if strContains msg "maximum context length" then
      ⟨400, .errorBody "Image is too large or complex to process", sent⟩
    else if strContains msg "invalid_api_key" then
      ⟨401, .errorBody "Invalid API key", sent⟩
    else if strContains msg "rate_limit_exceeded" then
      ⟨429, .errorBody "Rate limit exceeded", sent⟩
    else
      ⟨500, .errorBody msg, sent⟩
  | .otherVal => ⟨500, .errorBody "Failed to analyze the image", sent⟩

/-- Message of the TypeError raised by `completion.choices[0].message` when
`choices` is empty (`choices[0]` is `undefined`).  The engine text quotes the
property name; only the absence of the three matched substrings matters. -/
def choicesUndefinedMsg : String :=
  "Cannot read properties of undefined (reading message)"

/-- The proxy handler (route.ts POST).  `upstream` is the outcome the one
`openai.chat.completions.create` call would have: a completion, or a thrown
value.  `!imageBase64` is true for a missing field and for the empty string.
Extraction failures (empty `choices`, null or empty `content`) throw inside
the try block and are routed through the same catch block. -/
def POST (body : VisionBody) (upstream : Except Thrown Completion) : PostResult :=
  match body.imageBase64 with
  | none => ⟨400, .errorBody "Image data not provided", none⟩
  | some img =>
    if img = "" then ⟨400, .errorBody "Image data not provided", none⟩
    else if base64ByteLength img > 20 * 1024 * 1024 then
      ⟨400, .errorBody "Image size exceeds 20MB limit", none⟩
    else
      let req := mkChatRequest img body.question
      match upstream with
      | .error e => errorResponse e (some req)
      | .ok completion =>
        match completion.choices with
        | [] => errorResponse (.errObj choicesUndefinedMsg) (some req)
        | c :: _ =>
          match c.message.content with
          | none => errorResponse (.errObj "No response content from OpenAI") (some req)
          | some r =>
            if r = "" then errorResponse (.errObj "No response content from OpenAI") (some req)
            else ⟨200, .resultBody r, some req⟩

/-- A transcript entry (`MessageProps`): role, text, optional preview URI. -/
structure MessageM where
  role : String
  text : String
  imageUrl : Option String
deriving DecidableEq

/-- A selected file as the client sees it: declared size and MIME type, and
the data URI a `FileReader.readAsDataURL` read of it yields. -/
structure FileModel where
  size : Nat
  mime : String
  dataUrl : String
deriving DecidableEq

/-- The React state of the `Chat` component. -/
structure ClientState where
  userInput : String
  messages : List MessageM
  isLoading : Bool
  selectedImage : Option FileModel
  imagePreview : String
  error : String
deriving DecidableEq

/-- The fetch response as the client inspects it: `response.ok`, the parsed
`result` field (success) and the parsed `error` field (failure). -/
structure FetchResponse where
  ok : Bool
  result : String
  error : String
deriving DecidableEq

/-- JavaScript `String.prototype.trim`: remove leading and trailing
whitespace. -/
def jsTrim (s : String) : String :=
  String.mk (((s.data.dropWhile Char.isWhitespace).reverse.dropWhile Char.isWhitespace).reverse)

/-- Splitting a character list at every comma, JS `split(',')`. -/
def splitCommaAux : List Char → List Char → List String
  | [], acc => [String.mk acc.reverse]
  | c :: t, acc =>
    if c = ',' then String.mk acc.reverse :: splitCommaAux t []
    else splitCommaAux t (c :: acc)

/-- JavaScript `s.split(',')`. -/
def jsSplitComma (s : String) : List String := splitCommaAux s.data []

/-- The MIME types `handleImageSelect` accepts (chat.tsx line 76). -/
def allowedMimeTypes : List String :=
  ["image/jpeg", "image/png", "image/webp", "image/gif"]

/-- `handleImageSelect` (chat.tsx lines 66-91) applied to the selected file
(`none` when `e.target.files` has no entry).  Returns the new state and
whether a preview read was started; the preview itself is only set later,
when the reader completes, by `previewLoaded`. -/
def handleImageSelect (st : ClientState) (file : Option FileModel) :
    ClientState × Bool :=
  match file with
  | none => (st, false)
  | some f =>
    if f.size > 20 * 1024 * 1024 then
      ({ st with error := "Image size must be less than 20MB" }, false)
    else if !(allowedMimeTypes.contains f.mime) then
      ({ st with error := "Only JPEG, PNG, WEBP, and non-animated GIF files are supported" },
       false)
    else
      ({ st with selectedImage := some f, error := "" }, true)

/-- The preview reader callback of `handleImageSelect`: stores the data URI. -/
def previewLoaded (st : ClientState) (f : FileModel) : ClientState :=
  { st with imagePreview := f.dataUrl }

/-- Result of the synchronous phase of `handleSubmit`: the committed state
and whether a FileReader read of the attachment was started. -/
structure SubmitSyncResult where
  state : ClientState
  readStarted : Bool
deriving DecidableEq

/-- The synchronous body of `handleSubmit` (chat.tsx lines 93-167), which
runs to completion before any reader or fetch callback fires: the early
return when text is blank and no image is selected; `setIsLoading(true)` and
`setError("")`; starting the attachment read; appending the text-only user
message when the trimmed input is non-empty; clearing the input; and the
`finally` block, which runs `setIsLoading(false)` here because nothing in the
try block is awaited. -/
def handleSubmitSync (st : ClientState) : SubmitSyncResult :=
  if jsTrim st.userInput = "" && st.selectedImage.isNone then ⟨st, false⟩
  else
    let st1 := { st with isLoading := true, error := "" }
    let started := st1.selectedImage.isSome
    let st2 :=
      if jsTrim st1.userInput ≠ "" then
        { st1 with messages := st1.messages ++ [⟨"user", st1.userInput, none⟩] }
      else st1
    let st3 := { st2 with userInput := "" }
    ⟨{ st3 with isLoading := false }, started⟩

/-- Outcome of the `onloadend` callback up to the fetch: either an exception
was thrown before the fetch (the throw rejects the un-awaited async callback,
so no further state change happens), or the user message with the preview was
appended and a request with the given body was issued. -/
inductive CallbackOutcome where
  | aborted (st : ClientState)
  | requested (st : ClientState) (req : VisionBody)
deriving DecidableEq

/-- The `reader.onloadend` callback of `handleSubmit` (chat.tsx lines
105-128) up to the point where the fetch is issued.  `closure` is the state
captured when the handler was created (its `userInput` and `imagePreview`
are read here), `cur` is the committed state when the callback fires.
`base64Image` is `reader.result.split(',')[1]`; when it is undefined or
empty the callback throws, and the throw is not caught by the try block of
`handleSubmit`, which already returned. -/
def onloadendCallback (closure cur : ClientState) (dataUrl : String) :
    CallbackOutcome :=
  match (jsSplitComma dataUrl)[1]? with
  | none => .aborted cur
  | some b =>
    if b = "" then .aborted cur
    else
      let question := strOr closure.userInput "What is in this image?"
      .requested
        { cur with messages := cur.messages ++ [⟨"user", question, some closure.imagePreview⟩] }
        ⟨some b, question⟩

/-- The continuation of the `onloadend` callback once the fetch resolved
(chat.tsx lines 130-145).  On `response.ok` it appends the assistant message
and clears the attachment and preview.  On a non-ok response the callback
throws `new Error(errorData.error || ...)`; the rejection of the un-awaited
async callback is unhandled, so no state is changed — in particular the
catch block of `handleSubmit` does not run and `setError` is never called. -/
def onFetchResolved (cur : ClientState) (resp : FetchResponse) : ClientState :=
  if resp.ok then
    { cur with messages := cur.messages ++ [⟨"assistant", resp.result, none⟩]
               selectedImage := none
               imagePreview := "" }
  else cur

/-- The `reader.onerror` handler (chat.tsx lines 147-149) throws inside the
event callback; the exception is uncaught and no state update runs. -/
def readerErrorCallback (cur : ClientState) : ClientState := cur

/-- Whole-flow composition for a submission whose state has an attachment:
synchronous phase, then the reader callback, then the fetch resolution.
Returns the final committed state and the request body sent (`none` when the
callback aborted before the fetch). -/
def submitWithAttachment (st : ClientState) (resp : FetchResponse) :
    ClientState × Option VisionBody :=
  let a := handleSubmitSync st
  match st.selectedImage with
  | none => (a.state, none)
  | some f =>
    match onloadendCallback st a.state f.dataUrl with
    | .aborted s => (s, none)
    | .requested s req => (onFetchResolved s resp, some req)

/-- Normal form of the synchronous phase of `handleSubmit` when an
attachment is selected: loading set and cleared again, error cleared, the
text-only user message appended when the trimmed input is non-empty, the
input cleared, and the read started. -/
lemma handleSubmitSync_eq (st : ClientState) (f : FileModel)
    (h : st.selectedImage = some f) :
    handleSubmitSync st =
      ⟨{ st with userInput := ""
                 isLoading := false
                 error := ""
                 messages := st.messages
                   ++ (if jsTrim st.userInput = "" then []
                       else [⟨"user", st.userInput, none⟩]) }, true⟩ := by
  unfold handleSubmitSync
  rw [h]
  by_cases ht : jsTrim st.userInput = "" <;> simp [ht]

/-- Normal form of the reader callback when the data URI splits into a
non-empty base64 part: the user message with the captured question and
preview is appended and the request is issued. -/
lemma onloadendCallback_requested (closure cur : ClientState) (dataUrl b : String)
    (hUrl : (jsSplitComma dataUrl)[1]? = some b) (hb : b ≠ "") :
    onloadendCallback closure cur dataUrl =
      .requested
        { cur with messages := cur.messages
            ++ [⟨"user", strOr closure.userInput "What is in this image?",
                 some closure.imagePreview⟩] }
        ⟨some b, strOr closure.userInput "What is in this image?"⟩ := by
  unfold onloadendCallback
  rw [hUrl]
  simp [hb]

/-- The whole-flow composition unfolded at a state with an attachment. -/
lemma submitWithAttachment_eq (st : ClientState) (f : FileModel)
    (resp : FetchResponse) (h : st.selectedImage = some f) :
    submitWithAttachment st resp =
      match onloadendCallback st (handleSubmitSync st).state f.dataUrl with
      | .aborted s => (s, none)
      | .requested s req => (onFetchResolved s resp, some req) := by
  unfold submitWithAttachment
  rw [h]

/-- The request recorded in an error response is the one passed in. -/
lemma errorResponse_sent (e : Thrown) (s : Option ChatRequest) :
    (errorResponse e s).sent = s := by
  cases e with
  | errObj msg =>
    simp only [errorResponse]
    split <;> try rfl
    split <;> try rfl
    split <;> rfl
  | otherVal => rfl

/-- An error message matching none of the three substrings yields a 500 with
the literal message. -/
lemma errorResponse_unmatched (msg : String) (s : Option ChatRequest)
    (hm1 : strContains msg "maximum context length" = false)
    (hm2 : strContains msg "invalid_api_key" = false)
    (hm3 : strContains msg "rate_limit_exceeded" = false) :
    errorResponse (.errObj msg) s = ⟨500, .errorBody msg, s⟩ := by
  simp [errorResponse, hm1, hm2, hm3]

/-- A string of `n` base64 alphabet characters decodes to `3n/4` bytes. -/
lemma base64ByteLength_replicate (n : Nat) :
    base64ByteLength (String.mk (List.replicate n 'A')) = n * 3 / 4 := by
  unfold base64ByteLength
  have h : (List.replicate n 'A').filter isBase64Char = List.replicate n 'A' :=
    List.filter_eq_self.mpr (fun a ha => by
      have := List.eq_of_mem_replicate ha
      subst this
      decide)
  simp [h]

/-- Claim C2: a request without `imageBase64` gets a 400 with error
"Image data not provided", a request whose `imageBase64` decodes to more
than 20 * 1024 * 1024 bytes gets a 400 with the size-limit error, and in
both cases the upstream API is never called (`sent = none`). -/
theorem C2_validation_short_circuits :
    (∀ (q : String) (u : Except Thrown Completion),
       POST ⟨none, q⟩ u = ⟨400, .errorBody "Image data not provided", none⟩)
    ∧ (∀ (q img : String) (u : Except Thrown Completion),
       base64ByteLength img > 20 * 1024 * 1024 →
       POST ⟨some img, q⟩ u = ⟨400, .errorBody "Image size exceeds 20MB limit", none⟩) := by
  constructor
  · intro q u
    rfl
  · intro q img u h
    have himg : img ≠ "" := by
      intro he
      rw [he] at h
      exact absurd h (by decide)
    simp [POST, himg, h]

/-- Witness for C2 at concrete inputs: a missing image field, and a
28000000-character base64 string, which decodes to 21000000 bytes. -/
theorem C2_validation_short_circuits_witness :
    POST ⟨none, "q"⟩ (.ok ⟨[]⟩) = ⟨400, .errorBody "Image data not provided", none⟩
    ∧ POST ⟨some (String.mk (List.replicate 28000000 'A')), "q"⟩ (.ok ⟨[]⟩)
        = ⟨400, .errorBody "Image size exceeds 20MB limit", none⟩ :=
  ⟨C2_validation_short_circuits.1 "q" (.ok ⟨[]⟩),
   C2_validation_short_circuits.2 "q" (String.mk (List.replicate 28000000 'A')) (.ok ⟨[]⟩)
     (by rw [base64ByteLength_replicate]; norm_num)⟩

/-- Whenever the body passes validation, the request the proxy sends
upstream is `mkChatRequest img question`, over every upstream outcome. -/
lemma POST_sent (q img : String) (u : Except Thrown Completion)
    (h1 : img ≠ "") (h2 : base64ByteLength img ≤ 20 * 1024 * 1024) :
    (POST ⟨some img, q⟩ u).sent = some (mkChatRequest img q) := by
  have hnot : ¬ base64ByteLength img > 20 * 1024 * 1024 := by omega
  cases u with
  | error e =>
    simp [POST, h1, hnot, errorResponse_sent]
  | ok comp =>
    obtain ⟨cs⟩ := comp
    cases cs with
    | nil =>
      simp [POST, h1, hnot, errorResponse_sent]
    | cons c t =>
      obtain ⟨⟨ct⟩⟩ := c
      cases ct with
      | none =>
        simp [POST, h1, hnot, errorResponse_sent]
      | some r =>
        by_cases hr : r = "" <;>
          simp [POST, h1, hnot, hr, errorResponse_sent]

/-- Claim C6: whenever the proxy forwards a request (valid body, any
upstream outcome and any original MIME type, which the proxy never sees),
the request sent upstream is a single user turn containing the question and
an image URL that is exactly "data:image/jpeg;base64," followed by the
received base64 data, with detail "auto" and max_tokens 300. -/
theorem C6_forwarded_request_shape (q img : String) (u : Except Thrown Completion)
    (h1 : img ≠ "") (h2 : base64ByteLength img ≤ 20 * 1024 * 1024) :
    (POST ⟨some img, q⟩ u).sent
      = some { model := "gpt-4o-mini"
               messages := [{ role := "user"
                              content := [ .text q,
                                           .image ("data:image/jpeg;base64," ++ img) "auto" ] }]
               max_tokens := 300 } := by
  rw [POST_sent q img u h1 h2]
  rfl

/-- Witness for C6 at a concrete valid body and upstream outcome. -/
theorem C6_forwarded_request_shape_witness :
    (POST ⟨some "QUFB", "q"⟩ (.ok ⟨[]⟩)).sent
      = some { model := "gpt-4o-mini"
               messages := [{ role := "user"
                              content := [ .text "q",
                                           .image ("data:image/jpeg;base64," ++ "QUFB") "auto" ] }]
               max_tokens := 300 } :=
  C6_forwarded_request_shape "q" "QUFB" (.ok ⟨[]⟩) (by decide) (by decide)

/-- Claim C7: a completion whose first choice has empty or absent message
content — including an empty choices array — makes the proxy return a
500-status error body, never a 200.  The empty-choices case goes through the
TypeError raised by reading `message` of `undefined`; the empty/null-content
case goes through the thrown "No response content from OpenAI" error; both
match none of the three substring checks and fall to the 500 branch. -/
theorem C7_empty_content_is_500 (q img : String) (comp : Completion)
    (h1 : img ≠ "") (h2 : base64ByteLength img ≤ 20 * 1024 * 1024)
    (h3 : match comp.choices with
          | [] => True
          | c :: _ => c.message.content = none ∨ c.message.content = some "") :
    (POST ⟨some img, q⟩ (.ok comp)).status = 500
    ∧ ∃ e, (POST ⟨some img, q⟩ (.ok comp)).body = .errorBody e := by
  have hnot : ¬ base64ByteLength img > 20 * 1024 * 1024 := by omega
  obtain ⟨cs⟩ := comp
  cases cs with
  | nil =>
    refine ⟨?_, choicesUndefinedMsg, ?_⟩ <;>
      simp [POST, h1, hnot, errorResponse_unmatched choicesUndefinedMsg _
              (by decide) (by decide) (by decide)]
  | cons c t =>
    obtain ⟨⟨ct⟩⟩ := c
    have hmap := errorResponse_unmatched "No response content from OpenAI"
      (some (mkChatRequest img q)) (by decide) (by decide) (by decide)
    rcases h3 with h3 | h3 <;>
      [skip; skip] <;>
      simp only [ChatMessageOut.content] at h3 <;>
      subst h3 <;>
      refine ⟨?_, "No response content from OpenAI", ?_⟩ <;>
        simp [POST, h1, hnot, hmap]

/-- Witness for C7 at the empty-choices completion. -/
theorem C7_empty_content_is_500_witness :
    (POST ⟨some "QUFB", "q"⟩ (.ok ⟨[]⟩)).status = 500
    ∧ ∃ e, (POST ⟨some "QUFB", "q"⟩ (.ok ⟨[]⟩)).body = .errorBody e :=
  C7_empty_content_is_500 "q" "QUFB" ⟨[]⟩ (by decide) (by decide) trivial

/-- Counterexample to claim C3 as stated: an upstream `Error` whose message
contains "rate_limit_exceeded" does not always yield 429 — the substring
checks run in source order, so a message that also contains
"invalid_api_key" yields 401. -/
theorem C3_counterexample :
    strContains "invalid_api_key rate_limit_exceeded" "rate_limit_exceeded" = true
    ∧ (POST ⟨some "QUFB", "q"⟩
         (.error (.errObj "invalid_api_key rate_limit_exceeded"))).status = 401 := by
  decide

/-- Claim C3 (amended): the proxy checks the message of a thrown `Error` for
the three substrings in source order — "maximum context length" gives 400,
otherwise "invalid_api_key" gives 401, otherwise "rate_limit_exceeded" gives
429 with the rate-limit error string, otherwise 500 with the literal
message; a non-`Error` throw gives the generic 500.  A message containing
"rate_limit_exceeded" therefore yields 429 exactly when neither
earlier-checked substring occurs in it. -/
theorem C3_error_mapping_in_order (q img msg : String)
    (h1 : img ≠ "") (h2 : base64ByteLength img ≤ 20 * 1024 * 1024) :
    (strContains msg "maximum context length" = true →
       POST ⟨some img, q⟩ (.error (.errObj msg))
         = ⟨400, .errorBody "Image is too large or complex to process",
            some (mkChatRequest img q)⟩)
    ∧ (strContains msg "maximum context length" = false →
       strContains msg "invalid_api_key" = true →
       POST ⟨some img, q⟩ (.error (.errObj msg))
         = ⟨401, .errorBody "Invalid API key", some (mkChatRequest img q)⟩)
    ∧ (strContains msg "maximum context length" = false →
       strContains msg "invalid_api_key" = false →
       strContains msg "rate_limit_exceeded" = true →
       POST ⟨some img, q⟩ (.error (.errObj msg))
         = ⟨429, .errorBody "Rate limit exceeded", some (mkChatRequest img q)⟩)
    ∧ (strContains msg "maximum context length" = false →
       strContains msg "invalid_api_key" = false →
       strContains msg "rate_limit_exceeded" = false →
       POST ⟨some img, q⟩ (.error (.errObj msg))
         = ⟨500, .errorBody msg, some (mkChatRequest img q)⟩)
    ∧ POST ⟨some img, q⟩ (.error .otherVal)
        = ⟨500, .errorBody "Failed to analyze the image", some (mkChatRequest img q)⟩ := by
  have hnot : ¬ base64ByteLength img > 20 * 1024 * 1024 := by omega
  refine ⟨?_, ?_, ?_, ?_, ?_⟩ <;>
    intros <;>
    simp [POST, h1, hnot, errorResponse, *]

/-- Witness for the amended C3: a plain rate-limit message yields 429. -/
theorem C3_error_mapping_in_order_witness :
    POST ⟨some "QUFB", "q"⟩ (.error (.errObj "rate_limit_exceeded"))
      = ⟨429, .errorBody "Rate limit exceeded", some (mkChatRequest "QUFB" "q")⟩ :=
  (C3_error_mapping_in_order "q" "QUFB" "rate_limit_exceeded"
      (by decide) (by decide)).2.2.1 (by decide) (by decide) (by decide)

/-- Claim C1: when the upstream completion has a first choice with non-empty
content `answer`, the proxy returns 200 with `{result: answer}`; and the
client, handling a successful fetch response carrying `answer`, appends
exactly one assistant message with that text to the transcript and clears
the selected attachment and the preview. -/
theorem C1_success_roundtrip (q img answer errMsg : String) (rest : List Choice)
    (cur : ClientState)
    (h1 : img ≠ "") (h2 : base64ByteLength img ≤ 20 * 1024 * 1024)
    (h3 : answer ≠ "") :
    POST ⟨some img, q⟩ (.ok ⟨{ message := { content := some answer } } :: rest⟩)
      = ⟨200, .resultBody answer, some (mkChatRequest img q)⟩
    ∧ onFetchResolved cur { ok := true, result := answer, error := errMsg }
      = { cur with messages := cur.messages ++ [⟨"assistant", answer, none⟩]
                   selectedImage := none
                   imagePreview := "" } := by
  have hnot : ¬ base64ByteLength img > 20 * 1024 * 1024 := by omega
  constructor
  · simp [POST, h1, hnot, h3]
  · simp [onFetchResolved]

/-- Witness for C1 at a concrete completion, client state and response. -/
theorem C1_success_roundtrip_witness :
    POST ⟨some "QUFB", "q"⟩ (.ok ⟨[{ message := { content := some "a cat" } }]⟩)
      = ⟨200, .resultBody "a cat", some (mkChatRequest "QUFB" "q")⟩
    ∧ onFetchResolved ⟨"", [], false, some ⟨4, "image/png", "data:image/png;base64,QUFB"⟩, "pv", ""⟩
        { ok := true, result := "a cat", error := "" }
      = { (⟨"", [], false, some ⟨4, "image/png", "data:image/png;base64,QUFB"⟩, "pv", ""⟩ : ClientState) with
          messages := (⟨"", [], false, some ⟨4, "image/png", "data:image/png;base64,QUFB"⟩, "pv", ""⟩ : ClientState).messages
                        ++ [⟨"assistant", "a cat", none⟩]
          selectedImage := none
          imagePreview := "" } :=
  C1_success_roundtrip "q" "QUFB" "a cat" "" []
    ⟨"", [], false, some ⟨4, "image/png", "data:image/png;base64,QUFB"⟩, "pv", ""⟩
    (by decide) (by decide) (by decide)

/-- Claim C9: a file selection whose size exceeds 20 * 1024 * 1024 bytes or
whose declared MIME type is outside the allowed set sets a user-visible
error message and leaves the selected attachment and the preview unchanged;
no preview read is started. -/
theorem C9_selection_rejected (st : ClientState) (f : FileModel)
    (h : f.size > 20 * 1024 * 1024 ∨ allowedMimeTypes.contains f.mime = false) :
    ((handleImageSelect st (some f)).1.error = "Image size must be less than 20MB"
      ∨ (handleImageSelect st (some f)).1.error
          = "Only JPEG, PNG, WEBP, and non-animated GIF files are supported")
    ∧ (handleImageSelect st (some f)).1.selectedImage = st.selectedImage
    ∧ (handleImageSelect st (some f)).1.imagePreview = st.imagePreview
    ∧ (handleImageSelect st (some f)).2 = false := by
  rcases h with h | h
  · simp [handleImageSelect, h]
  · by_cases hs : f.size > 20 * 1024 * 1024
    · simp [handleImageSelect, hs]
    · have hmem : f.mime ∉ allowedMimeTypes := by simpa using h
      simp [handleImageSelect, hs, hmem]

/-- Witness for C9: a 25 MiB text file is rejected with state untouched. -/
theorem C9_selection_rejected_witness :
    ((handleImageSelect ⟨"", [], false, none, "", ""⟩ (some ⟨26214400, "text/plain", "d"⟩)).1.error
        = "Image size must be less than 20MB"
      ∨ (handleImageSelect ⟨"", [], false, none, "", ""⟩ (some ⟨26214400, "text/plain", "d"⟩)).1.error
          = "Only JPEG, PNG, WEBP, and non-animated GIF files are supported")
    ∧ (handleImageSelect ⟨"", [], false, none, "", ""⟩ (some ⟨26214400, "text/plain", "d"⟩)).1.selectedImage
        = (⟨"", [], false, none, "", ""⟩ : ClientState).selectedImage
    ∧ (handleImageSelect ⟨"", [], false, none, "", ""⟩ (some ⟨26214400, "text/plain", "d"⟩)).1.imagePreview
        = (⟨"", [], false, none, "", ""⟩ : ClientState).imagePreview
    ∧ (handleImageSelect ⟨"", [], false, none, "", ""⟩ (some ⟨26214400, "text/plain", "d"⟩)).2 = false :=
  C9_selection_rejected ⟨"", [], false, none, "", ""⟩ ⟨26214400, "text/plain", "d"⟩
    (Or.inl (by decide))

/-- Claim C5, against the code (code bug): the loading flag does not stay
true until the proxy response is handled.  The `finally` block of
`handleSubmit` runs at the end of the synchronous phase, before the
FileReader callback fires and hence before the fetch is even issued, so for
every submission with an attachment the committed state in which the request
is later sent already has `isLoading = false` — submits and the file input
are not disabled while the request is in flight. -/
theorem C5_loading_cleared_before_request (st : ClientState) (f : FileModel)
    (h : st.selectedImage = some f) :
    (handleSubmitSync st).state.isLoading = false
    ∧ (handleSubmitSync st).readStarted = true := by
  unfold handleSubmitSync
  rw [h]
  simp

/-- Witness for C5 at a concrete state with an attachment. -/
theorem C5_loading_cleared_before_request_witness :
    (handleSubmitSync ⟨"", [], false, some ⟨4, "image/png", "data:image/png;base64,QUFB"⟩, "pv", ""⟩).state.isLoading = false
    ∧ (handleSubmitSync ⟨"", [], false, some ⟨4, "image/png", "data:image/png;base64,QUFB"⟩, "pv", ""⟩).readStarted = true :=
  C5_loading_cleared_before_request _ ⟨4, "image/png", "data:image/png;base64,QUFB"⟩ rfl

/-- Claim C4, against the code (code bug): on a non-2xx proxy response the
error message is never surfaced.  The `throw` runs inside the un-awaited
async `onloadend` callback, so the catch block of `handleSubmit` — which
already returned — never calls `setError`: after the whole flow the error
state is the empty string set at the start of the submission, not the
response error.  The attachment and preview are indeed left unchanged, and a
file-read error (`onerror` throwing inside the event handler) likewise
changes nothing. -/
theorem C4_error_never_surfaced (st : ClientState) (f : FileModel) (b : String)
    (resp : FetchResponse)
    (hImg : st.selectedImage = some f)
    (hUrl : (jsSplitComma f.dataUrl)[1]? = some b) (hb : b ≠ "")
    (hFail : resp.ok = false) :
    ((submitWithAttachment st resp).1.error = ""
      ∧ (submitWithAttachment st resp).1.selectedImage = some f
      ∧ (submitWithAttachment st resp).1.imagePreview = st.imagePreview)
    ∧ (∀ cur : ClientState, readerErrorCallback cur = cur) := by
  refine ⟨?_, fun cur => rfl⟩
  rw [submitWithAttachment_eq st f resp hImg,
      onloadendCallback_requested st _ f.dataUrl b hUrl hb,
      handleSubmitSync_eq st f hImg]
  simp [onFetchResolved, hFail, hImg]

/-- Witness for C4: a concrete failed response leaves the error state empty
and the attachment in place. -/
theorem C4_error_never_surfaced_witness :
    ((submitWithAttachment ⟨"", [], false, some ⟨4, "image/png", "data:image/png;base64,QUFB"⟩, "pv", ""⟩
        ⟨false, "", "Rate limit exceeded"⟩).1.error = ""
      ∧ (submitWithAttachment ⟨"", [], false, some ⟨4, "image/png", "data:image/png;base64,QUFB"⟩, "pv", ""⟩
          ⟨false, "", "Rate limit exceeded"⟩).1.selectedImage
          = some ⟨4, "image/png", "data:image/png;base64,QUFB"⟩
      ∧ (submitWithAttachment ⟨"", [], false, some ⟨4, "image/png", "data:image/png;base64,QUFB"⟩, "pv", ""⟩
          ⟨false, "", "Rate limit exceeded"⟩).1.imagePreview
          = (⟨"", [], false, some ⟨4, "image/png", "data:image/png;base64,QUFB"⟩, "pv", ""⟩ : ClientState).imagePreview)
    ∧ (∀ cur : ClientState, readerErrorCallback cur = cur) :=
  C4_error_never_surfaced ⟨"", [], false, some ⟨4, "image/png", "data:image/png;base64,QUFB"⟩, "pv", ""⟩
    ⟨4, "image/png", "data:image/png;base64,QUFB"⟩ "QUFB" ⟨false, "", "Rate limit exceeded"⟩
    rfl (by decide) (by decide) rfl

/-- Claim C8: submitting with an attachment and a blank (empty) text input
appends a user message whose text is exactly "What is in this image?" (with
the captured preview), and the request body sent to the proxy carries the
same default string in its `question` field. -/
theorem C8_default_question (st : ClientState) (f : FileModel) (b : String)
    (hImg : st.selectedImage = some f) (hBlank : st.userInput = "")
    (hUrl : (jsSplitComma f.dataUrl)[1]? = some b) (hb : b ≠ "") :
    onloadendCallback st (handleSubmitSync st).state f.dataUrl
      = .requested
          { st with isLoading := false
                    error := ""
                    messages := st.messages
                      ++ [⟨"user", "What is in this image?", some st.imagePreview⟩] }
          ⟨some b, "What is in this image?"⟩ := by
  rw [onloadendCallback_requested st _ f.dataUrl b hUrl hb,
      handleSubmitSync_eq st f hImg]
  simp [strOr, hBlank]
  rfl

/-- Witness for C8 at a concrete state with a blank input. -/
theorem C8_default_question_witness :
    onloadendCallback ⟨"", [], false, some ⟨4, "image/png", "data:image/png;base64,QUFB"⟩, "pv", ""⟩
        (handleSubmitSync ⟨"", [], false, some ⟨4, "image/png", "data:image/png;base64,QUFB"⟩, "pv", ""⟩).state
        "data:image/png;base64,QUFB"
      = .requested
          { (⟨"", [], false, some ⟨4, "image/png", "data:image/png;base64,QUFB"⟩, "pv", ""⟩ : ClientState) with
            isLoading := false
            error := ""
            messages := [⟨"user", "What is in this image?", some "pv"⟩] }
          ⟨some "QUFB", "What is in this image?"⟩ :=
  C8_default_question ⟨"", [], false, some ⟨4, "image/png", "data:image/png;base64,QUFB"⟩, "pv", ""⟩
    ⟨4, "image/png", "data:image/png;base64,QUFB"⟩ "QUFB" rfl rfl (by decide) (by decide)

/-- Claim C10: submitting with a non-blank text input and an attachment
appends two user messages, not one — the text-only message synchronously in
`handleSubmit`, then, when the reader callback fires, a second user message
with the same text and the captured preview — in that order; the request
carries the same text as its question. -/
theorem C10_two_user_messages (st : ClientState) (f : FileModel) (b : String)
    (hImg : st.selectedImage = some f) (hText : jsTrim st.userInput ≠ "")
    (hUrl : (jsSplitComma f.dataUrl)[1]? = some b) (hb : b ≠ "") :
    onloadendCallback st (handleSubmitSync st).state f.dataUrl
      = .requested
          { st with isLoading := false
                    error := ""
                    userInput := ""
                    messages := st.messages
                      ++ [⟨"user", st.userInput, none⟩,
                          ⟨"user", st.userInput, some st.imagePreview⟩] }
          ⟨some b, st.userInput⟩ := by
  have hne : st.userInput ≠ "" := by
    intro he
    exact hText (by rw [he]; rfl)
  rw [onloadendCallback_requested st _ f.dataUrl b hUrl hb,
      handleSubmitSync_eq st f hImg]
  simp [strOr, hText, hne]

/-- Witness for C10 at a concrete state with text and an attachment. -/
theorem C10_two_user_messages_witness :
    onloadendCallback ⟨"hi", [], false, some ⟨4, "image/png", "data:image/png;base64,QUFB"⟩, "pv", ""⟩
        (handleSubmitSync ⟨"hi", [], false, some ⟨4, "image/png", "data:image/png;base64,QUFB"⟩, "pv", ""⟩).state
        "data:image/png;base64,QUFB"
      = .requested
          { (⟨"hi", [], false, some ⟨4, "image/png", "data:image/png;base64,QUFB"⟩, "pv", ""⟩ : ClientState) with
            isLoading := false
            error := ""
            userInput := ""
            messages := [⟨"user", "hi", none⟩, ⟨"user", "hi", some "pv"⟩] }
          ⟨some "QUFB", "hi"⟩ :=
  C10_two_user_messages ⟨"hi", [], false, some ⟨4, "image/png", "data:image/png;base64,QUFB"⟩, "pv", ""⟩
    ⟨4, "image/png", "data:image/png;base64,QUFB"⟩ "QUFB" rfl (by decide) (by decide) (by decide)
